import Mathlib

set_option autoImplicit false

/-!
Shallow embedding of the grouped-reduction and shape-masking core of
earthkit-climate, and proofs settling the frozen claims about it.

The embedding follows the source files:
  * src/earthkit/climate/climatology.py  (decorators, mean, quantiles, percentiles, anomaly)
  * src/tyto/options.py                  (nanaverage, HOW_DICT)
  * src/tyto/aggregate.py                (groupby, _groupby_bins, _pandas_frequency_and_bins, rolling_reduce)
  * src/earthkit/climate/shapes.py       (rasterize, mask_contains_points, _shape_mask_iterator, reduce)

Numeric values are modelled as rationals, with `Option ℚ` for floating data
where NaN matters (`none` = NaN); no claim settled here depends on binary
floating-point rounding.  External collaborators (xarray grouping and
rolling, numpy reductions, pandas frequency inference, rasterio, matplotlib
containment tests, geopandas) are abstracted as explicit oracle parameters
or small contracts, each documented at its use site; all control flow and
data plumbing of the repository itself is translated line by line.
-/

namespace EK

/-- Python exception values observable from the embedded functions. -/
inductive PyErr where
  | typeError (msg : String)
  | valueError (msg : String)
  | attributeError (msg : String)
  | keyError (key : String)
  | assertionError
deriving DecidableEq

deriving instance DecidableEq for Except

/-- Python dict with string keys and string values, as an association list
in insertion order (the order `dict.items()` iterates). -/
abbrev Dict := List (String × String)

/-- Model of `dict.setdefault(k, v)`: if the key is present the dict is
unchanged, otherwise the pair is appended (CPython preserves insertion
order). -/
def dictSetdefault (d : Dict) (k v : String) : Dict :=
  if (d.lookup k).isSome then d else d ++ [(k, v)]

/-! ## climatology.py : decorator chain (claims C1, C3)

The reduction operations are wrapped, outermost first, by
`time_dim_decorator`, `groupby_kwargs_decorator` and
`season_order_decorator` (decorators apply bottom-up, so at call time the
time-dim wrapper runs first and the season wrapper runs last, directly
around the undecorated function). -/

/-- Keyword names that `groupby_kwargs_decorator` moves from `**kwargs`
into the `groupby_kwargs` dict (climatology.py line 25). -/
def GROUPBY_KWARGS : List String := ["frequency", "bin_widths", "squeeze"]

/-- Result of one pass through the `groupby_kwargs_decorator` wrapper. -/
structure GroupbyStep where
  /-- the `groupby_kwargs` dict handed to the wrapped function -/
  passed : Dict
  /-- the remaining `**kwargs` handed to the wrapped function -/
  rest : Dict
  /-- contents of the shared default-argument dict after this call -/
  state : Dict
deriving DecidableEq

/-- Wrapper body of `groupby_kwargs_decorator` (climatology.py lines 28-40).
The default `groupby_kwargs: dict = {}` is a single dict object created once
at function definition time; `st` is its contents before the call.  When the
caller does not pass `groupby_kwargs`, the wrapper operates on (and, through
`setdefault`, mutates) that shared dict, so the post-call `state` is the
updated dict; when the caller passes an explicit dict, the default is
untouched. -/
def groupby_kwargs_wrapper (st : Dict) (explicit : Option Dict) (kwargs : Dict) :
    GroupbyStep :=
  let init := match explicit with
    | some d => d
    | none => st
  let step := kwargs.foldl
    (fun (acc : Dict × Dict) kv =>
      if kv.1 ∈ GROUPBY_KWARGS then (dictSetdefault acc.1 kv.1 kv.2, acc.2)
      else (acc.1, acc.2 ++ [kv]))
    (init, [])
  { passed := step.1
    rest := step.2
    state := match explicit with
      | some _ => st
      | none => step.1 }

/-- Fixed season order used by `season_order_decorator`
(climatology.py line 49). -/
def SEASON_ORDER : List String := ["DJF", "MAM", "JJA", "SON"]

/-- Reduced climatology with a season axis: labels in axis order, each with
its reduced value (`none` = NaN). -/
abbrev SeasonArray := List (String × Option ℚ)

/-- Model of `xarray.reindex` on the season axis: a new array whose axis
follows the requested label order, with NaN at labels absent from the
input.  The original array is not modified. -/
def reindexSeason (arr : SeasonArray) (order : List String) : SeasonArray :=
  order.map (fun s => (s, (arr.lookup s).join))

/-- Wrapper body of `season_order_decorator` (climatology.py lines 43-52).
Two properties are taken verbatim from the source: the guard reads
`kwargs.get("frequency", "NOTseason")` from the wrapper arguments, and the
line `result.reindex(season=["DJF", "MAM", "JJA", "SON"])` does not bind its
return value — xarray reindex returns a new object, so the reordered array
is discarded and the original `result` is returned in every case. -/
def season_order_wrapper (kwargs : Dict) (result : SeasonArray) : SeasonArray :=
  if (kwargs.lookup "frequency").getD "NOTseason" = "season" then
    let _discarded := reindexSeason result SEASON_ORDER
    result
  else
    result

/-- Composition of the decorated climatological `mean`
(climatology.py lines 55-95) as seen by a caller.  `groupByTime` abstracts
`aggregate._groupby_time` followed by `aggregate.reduce(..., how="mean")`
(that module is not part of the reduction core embedded here): it maps the
resolved groupby kwargs to the reduced array in the group-discovery order of
the grouping engine.  `st` is the shared default `groupby_kwargs` dict
before the call; the returned dict is its contents afterwards.  The
`time_dim_decorator` step only resolves the time dimension name and does not
touch the season axis, so it is not modelled. -/
def climatology_mean (groupByTime : Dict → SeasonArray) (st : Dict)
    (explicit_gkw : Option Dict) (kwargs : Dict) : SeasonArray × Dict :=
  let g := groupby_kwargs_wrapper st explicit_gkw kwargs
  let result := groupByTime g.passed
  (season_order_wrapper g.rest result, g.state)

/-! ## climatology.py : quantiles and percentiles (claim C2) -/

/-- Body of the climatological `quantiles` (climatology.py lines 253-299),
after the decorator chain: for each requested probability, call the external
xarray reduction `grouped_data.quantile(q=quantile, dim=time_dim)`
(abstracted as `groupedQuantile`, mapping the probability to the per-group
reduced array), then concatenate the results along a new "quantile" axis
labelled with the probabilities. -/
def climatology_quantiles (groupedQuantile : ℚ → SeasonArray) (qs : List ℚ) :
    List (ℚ × SeasonArray) :=
  qs.map (fun q => (q, groupedQuantile q))

/-- Body of `percentiles` (climatology.py lines 302-342).  The first
statement, `quantiles = [p * 1e-2 for p in percentiles]`, binds the name
`quantiles` as a local variable holding a list for the whole function body;
the next statement, `quantile_data = quantiles(dataarray, quantiles,
**kwargs)`, therefore applies that list value instead of the module-level
`quantiles` function and raises TypeError, so the axis-relabelling code
below it is unreachable and no call to `percentiles` returns. -/
def climatology_percentiles (groupedQuantile : ℚ → SeasonArray) (ps : List ℚ) :
    Except PyErr (List (ℚ × SeasonArray)) :=
  let _qs := ps.map (fun p => p / 100)
  Except.error (PyErr.typeError "list object is not callable")

/-! ## tyto/options.py : nanaverage (claim C4)

Multi-dimensional numpy arrays are modelled row-major with an explicit
shape; `none` entries are NaN. -/

/-- Row-major N-dimensional array of floats; `none` = NaN. -/
structure NDArr where
  shape : List Nat
  data : List (Option ℚ)
deriving DecidableEq

/-- Number of elements an array of the given shape holds. -/
def shapeSize (s : List Nat) : Nat := s.foldl (· * ·) 1

/-- Model of `np.ones(shape)`. -/
def npOnes (shape : List Nat) : NDArr :=
  ⟨shape, List.replicate (shapeSize shape) (some 1)⟩

/-- Elementwise float product; NaN propagates. -/
def elemMul (x y : Option ℚ) : Option ℚ :=
  match x, y with
  | some a, some b => some (a * b)
  | _, _ => none

/-- Model of `np.nansum(a)` with no axis argument: NaN entries count as
zero and the whole array reduces to a 0-d array (np.nansum of an all-NaN
array is 0, not NaN). -/
def nansumAll (a : NDArr) : NDArr :=
  ⟨[], [some (a.data.foldl (fun acc v => acc + v.getD 0) 0)]⟩

/-- Model of `np.nanmean(a)` with no axis argument: the mean of the non-NaN
entries, NaN if there are none. -/
def nanmeanAll (a : NDArr) : NDArr :=
  let vals := a.data.filterMap id
  ⟨[], [if vals.length = 0 then none else some (vals.sum / vals.length)]⟩

/-- Model of `ndarray.reshape(newShape)`: succeeds exactly when the element
counts agree. -/
def ndReshape (a : NDArr) (newShape : List Nat) : Except PyErr NDArr :=
  if shapeSize newShape = a.data.length then Except.ok ⟨newShape, a.data⟩
  else Except.error (PyErr.valueError "cannot reshape array")

/-- The `reshape[a] = 1` loop of nanaverage: set the listed positions of the
shape to 1 (every axis used by the claims is in range). -/
def reshapeOnes (shape : List Nat) (axes : List Nat) : List Nat :=
  axes.foldl (fun s a => s.set a 1) shape

/-- Broadcast division of every element by a scalar.  numpy float division
by zero yields inf or nan rather than raising; both non-finite outcomes are
modelled as a missing value. -/
def divByScalar (a : NDArr) (d : Option ℚ) : NDArr :=
  ⟨a.shape, a.data.map (fun v =>
    match v, d with
    | some x, some y => if y = 0 then none else some (x / y)
    | _, _ => none)⟩

/-- The `axis` argument of nanaverage as a Python value: absent, a single
integer, or a sequence of axis indices. -/
inductive AxisArg where
  | noAxis
  | intAxis (i : Nat)
  | listAxis (l : List Nat)
deriving DecidableEq

/-- Model of `nanaverage` (tyto/options.py lines 3-55), translated line by
line.  Two source facts are load-bearing: `axis` is a named parameter of
`nanaverage` and therefore is never part of `**kwargs`, so both
`np.nansum(this_weights, **kwargs)` and the final `np.nansum(data *
this_weights, **kwargs)` (and `np.nanmean(data, **kwargs)` in the
weightless branch) reduce over all elements; and the loop `for a in axis`
iterates the axis value, so a single integer axis raises TypeError.  The
source broadcast `np.ones(data.shape) * weights` is modelled for weights of
the same shape as the data, the only case the claims exercise; other shapes
take the numpy broadcast-failure branch. -/
def nanaverage (data : NDArr) (weights : Option NDArr) (axis : AxisArg) :
    Except PyErr NDArr :=
  match weights with
  | some w =>
    if w.shape = data.shape then
      let this_weights0 : NDArr :=
        ⟨data.shape, List.zipWith elemMul (npOnes data.shape).data w.data⟩
      -- this_weights[np.isnan(data)] = np.nan
      let this_weights : NDArr :=
        ⟨data.shape, List.zipWith (fun dv wv => match dv with
          | none => none
          | some _ => wv) data.data this_weights0.data⟩
      -- this_denom = np.nansum(this_weights, **kwargs) : full reduction
      let this_denom := nansumAll this_weights
      match axis with
      | AxisArg.intAxis _ =>
        -- for a in axis : an int is not iterable
        Except.error (PyErr.typeError "int object is not iterable")
      | AxisArg.listAxis l => do
        let reshaped ← ndReshape this_denom (reshapeOnes this_weights.shape l)
        let scaled := divByScalar this_weights (reshaped.data.headD none)
        Except.ok (nansumAll
          ⟨data.shape, List.zipWith elemMul data.data scaled.data⟩)
      | AxisArg.noAxis =>
        let scaled := divByScalar this_weights (this_denom.data.headD none)
        Except.ok (nansumAll
          ⟨data.shape, List.zipWith elemMul data.data scaled.data⟩)
    else
      Except.error (PyErr.valueError "operands could not be broadcast together")
  | none =>
    -- np.nanmean(data, **kwargs) : axis, being a named parameter, is dropped
    Except.ok (nanmeanAll data)

/-! ## tyto/aggregate.py : temporal grouping engine (claims C5, C6) -/

/-- Mapping from pandas frequency strings to xarray time groups
(tyto/aggregate.py lines 6-10). -/
def PANDAS_FREQUENCIES : List (String × String) :=
  [("D", "dayofyear"), ("W", "weekofyear"), ("M", "month")]

/-- The maximum limit of climatology time groups
(tyto/aggregate.py lines 13-18). -/
def BIN_MAXES : List (String × Nat) :=
  [("dayofyear", 366), ("weekofyear", 53), ("month", 12), ("season", 4)]

/-- Model of Python `s.lstrip("0123456789")`: drop leading digit
characters. -/
def lstripDigits (s : String) : String :=
  String.mk (s.toList.dropWhile Char.isDigit)

/-- Model of Python `s.lstrip(" ")`: drop leading spaces. -/
def lstripSpaces (s : String) : String :=
  String.mk (s.toList.dropWhile (fun ch => ch = ' '))

/-- Model of `_pandas_frequency_and_bins` (tyto/aggregate.py lines
161-167), taking the Python value of `frequency` at the call site.  The
function is reached with `frequency = None` when `xr.infer_freq` found no
discernible frequency; `None.lstrip(...)` then raises AttributeError.  For
a string, the digit prefix is sliced off as `frequency[: -len(freq)]` and
kept as a STRING (`"3"` for `"3D"`), with the empty slice collapsing to
None through `or None`; the stripped remainder is looked up in
`PANDAS_FREQUENCIES`, defaulting to the whole original string. -/
def pandas_frequency_and_bins (frequency : Option String) :
    Except PyErr (String × Option String) :=
  match frequency with
  | none =>
    Except.error (PyErr.attributeError "NoneType object has no attribute lstrip")
  | some f =>
    let freq := lstripDigits f
    let binsStr := String.mk (f.toList.take (f.length - freq.length))
    let bins : Option String := if binsStr = "" then none else some binsStr
    let freqOut := (PANDAS_FREQUENCIES.lookup (lstripSpaces freq)).getD f
    Except.ok (freqOut, bins)

/-- Python value flowing through the `bin_widths` argument: None, an
integer, an explicit list of edges, or a string (the digit prefix that
`pandas_frequency_and_bins` produces). -/
inductive BW where
  | noneV
  | intV (n : Int)
  | listV (l : List Int)
  | strV (s : String)
deriving DecidableEq

/-- Python truthiness of a `BW` value, as used by
`bin_widths = bin_widths or possible_bins`. -/
def BW.isFalsy : BW → Bool
  | BW.noneV => true
  | BW.intV n => n = 0
  | BW.listV l => l.isEmpty
  | BW.strV s => s = ""

/-- Model of Python `range(0, stop, step)` as a list: step 0 raises
ValueError, a string step raises TypeError at the call site, a negative
step gives the empty range for positive stop. -/
def pyRange (stop : Int) (step : Int) : Except PyErr (List Int) :=
  if step = 0 then Except.error (PyErr.valueError "range arg 3 must not be zero")
  else if step < 0 then Except.ok []
  else if stop ≤ 0 then Except.ok []
  else
    let st := step.toNat
    Except.ok ((List.range ((stop.toNat + st - 1) / st)).map (fun i => (i : Int) * st))

/-- Datetime accessor fields available on `dataarray.time.dt`, the external
xarray contract behind `dataarray.groupby("time." + frequency)`: grouping
by any other name raises AttributeError, which the source converts to the
ValueError below. -/
def TIME_ACCESSOR_FIELDS : List String :=
  ["year", "quarter", "season", "month", "weekofyear", "week", "dayofyear",
   "dayofweek", "day", "date", "hour", "minute", "second"]

/-- Result of a successful grouping request. -/
inductive GroupResult where
  /-- groups the array by binned-interval membership over the listed edges,
  per `dataarray.groupby_bins("time." ++ freq, edges)` -/
  | binned (freq : String) (edges : List Int)
  /-- groups the array by exact calendar value, per
  `dataarray.groupby("time." ++ freq)` -/
  | byValue (freq : String)
deriving DecidableEq

/-- Model of `_groupby_bins` (tyto/aggregate.py lines 140-158).  When
`bin_widths` is not a list or tuple, the bin edges are generated as
`range(0, BIN_MAXES[frequency] + 1, bin_widths)`; the lookup raises
KeyError for a frequency outside the table, and `range` raises TypeError
when the width is the string produced by `pandas_frequency_and_bins`. -/
def tyto_groupby_bins (frequency : String) (bin_widths : BW) :
    Except PyErr GroupResult := do
  let edges ← match bin_widths with
    | BW.listV l => Except.ok l
    | bw => do
      let maxValue ← match BIN_MAXES.lookup frequency with
        | some m => Except.ok m
        | none => Except.error (PyErr.keyError frequency)
      match bw with
      | BW.intV n => pyRange (maxValue + 1) n
      | BW.strV _ =>
        Except.error (PyErr.typeError "str object cannot be interpreted as an integer")
      | BW.noneV =>
        Except.error (PyErr.typeError "NoneType object cannot be interpreted as an integer")
      | BW.listV l => Except.ok l
  if TIME_ACCESSOR_FIELDS.contains frequency then
    Except.ok (GroupResult.binned frequency edges)
  else
    Except.error (PyErr.valueError ("Invalid frequency " ++ frequency))

/-- Outcome of `xr.infer_freq(dataarray.time)`, an external pandas/xarray
call: it raises for fewer than three time points (and for non-time axes),
returns None when the spacing is irregular so no frequency is discernible,
and otherwise returns a frequency string, possibly with an integer
multiplier prefix such as "3D". -/
inductive InferOutcome where
  | freq (s : String)
  | noFreq
  | raisesError
deriving DecidableEq

/-- Model of `groupby` (tyto/aggregate.py lines 110-137).  When `frequency`
is omitted the inference outcome is consulted: only an exception from
`xr.infer_freq` is caught and converted to the user-facing ValueError; a
None return flows into `pandas_frequency_and_bins`, whose AttributeError
propagates uncaught.  `bin_widths = bin_widths or possible_bins` follows
Python truthiness, and a non-None resolved width is dispatched to
`tyto_groupby_bins`. -/
def tyto_groupby (inferred : InferOutcome) (frequency : Option String)
    (bin_widths : BW) : Except PyErr GroupResult := do
  let resolved : String × BW ← match frequency with
    | some f => Except.ok (f, bin_widths)
    | none =>
      match inferred with
      | InferOutcome.raisesError =>
        Except.error (PyErr.valueError
          "Unable to infer time frequency from data; please pass the frequency argument explicitly")
      | InferOutcome.noFreq => do
        let fb ← pandas_frequency_and_bins none
        Except.ok (fb.1, bin_widths)
      | InferOutcome.freq s => do
        let fb ← pandas_frequency_and_bins (some s)
        let bw := if bin_widths.isFalsy then
            (match fb.2 with
             | some b => BW.strV b
             | none => BW.noneV)
          else bin_widths
        Except.ok (fb.1, bw)
  if resolved.2 ≠ BW.noneV then
    tyto_groupby_bins resolved.1 resolved.2
  else if TIME_ACCESSOR_FIELDS.contains resolved.1 then
    Except.ok (GroupResult.byValue resolved.1)
  else
    Except.error (PyErr.valueError ("Invalid frequency " ++ resolved.1))

/-! ## tyto/aggregate.py : rolling-window reducer (claim C7) -/

/-- One-dimensional float series; `none` = NaN. -/
abbrev Series := List (Option ℚ)

/-- Model of the xarray native fast path `dataarray.rolling(dim=w).mean()`
over a single dimension: right-aligned windows with the default
`min_periods` equal to the window size, so label `i` carries the mean of
the `w` values ending at `i` and is NaN while fewer than `w` valid values
are available. -/
def rollingMeanNative (xs : Series) (w : Nat) : Series :=
  (List.range xs.length).map (fun i =>
    if i + 1 < w then none
    else
      let window := (xs.take (i + 1)).drop (i + 1 - w)
      let valid := window.filterMap id
      if valid.length < w then none else some (valid.sum / w))

/-- Model of the external `DataArray.dropna(dim, how=...)` contract over a
single dimension: "any" and "all" coincide on 1-d slices and drop the NaN
labels, any other string raises ValueError, and `how=None` falls through
xarray dropna to `TypeError: must specify how or thresh`. -/
def dropnaXr (xs : Series) (how : Option String) : Except PyErr Series :=
  match how with
  | some "any" => Except.ok (xs.filter (fun v => v ≠ none))
  | some "all" => Except.ok (xs.filter (fun v => v ≠ none))
  | some _ => Except.error (PyErr.valueError "invalid how option")
  | none => Except.error (PyErr.typeError "must specify how or thresh")

/-- Model of `rolling_reduce` (tyto/aggregate.py lines 171-240) specialised
to one windowed dimension and the native "mean" fast path.  Three source
facts are carried over.  First, line 207 (`rolling_kwargs {...}`) is
missing its assignment operator and is a SyntaxError, so the module cannot
even be imported; the embedding reads the line as the evident assignment in
order to expose the behaviour of the remaining lines.  Second, line 212
re-assigns `dropna_how = kwargs.pop("dropna_how", None)`, and since
`dropna_how` is a named parameter it never appears in `**kwargs`, so the
caller-supplied `dropna_how_arg` is overwritten with None.  Third, line 234
tests the string literal `"dropna_how" is not None`, which is always true,
so the dropna branch runs on every call, handing `how=None` to dropna. -/
def rolling_reduce (xs : Series) (window : Nat) (dropna_how_arg : Option String) :
    Except PyErr Series := do
  let _ := dropna_how_arg
  let leftover_kwargs : Dict := []
  let dropna_how := leftover_kwargs.lookup "dropna_how"
  let data_windowed := rollingMeanNative xs window
  let literal_check := true
  if literal_check then
    dropnaXr data_windowed dropna_how
  else
    Except.ok data_windowed

/-! ## shapes.py : masking engine and spatial reduction (claims C8, C9, C10) -/

/-- Coordinate metadata of the target grid, as read by the masking
functions: the names of the latitude/longitude coordinate variables, the
dimension tuples those variables are indexed by (`coords[key].dims`), and
the length of each dimension. -/
structure GridCoords where
  latKey : String
  lonKey : String
  latDims : List String
  lonDims : List String
  dimSizes : List (String × Nat)
deriving DecidableEq

/-- Length of a named dimension of the grid. -/
def GridCoords.dimLen (c : GridCoords) (d : String) : Nat :=
  (c.dimSizes.lookup d).getD 0

/-- One stored cell of a mask array.  The rasterize path builds an integer
array; the point-in-polygon path initialises a float array as
`np.zeros(shape).astype(bool) * np.nan` (all NaN) and assigns True into it,
which numpy stores as the float 1.0. -/
inductive Cell where
  | intC (z : Int)
  | floatNaN
  | floatTrue
deriving DecidableEq

/-- Whether a cell holds a boolean or integer value.  A stored float 1.0
(an assigned True) is counted as integer-valued under the most generous
reading; a NaN cell is not a boolean or integer value under any reading. -/
def Cell.isBoolOrInt : Cell → Bool
  | Cell.intC _ => true
  | Cell.floatTrue => true
  | Cell.floatNaN => false

/-- A mask: a labelled array over the listed dimensions, cells row-major. -/
structure Mask where
  dims : List String
  cells : List Cell
deriving DecidableEq

/-- Model of `rasterize` (shapes.py lines 23-62): the affine transform and
the `rasterio.features.rasterize` call are external, abstracted as
`raster`, the integer rasterio writes at each flattened position (1 inside
the geometries, the fill value 0 outside).  The output is an integer
DataArray over exactly `(lat_key, lon_key)`, with
`out_shape = (len(coords[lat_key]), len(coords[lon_key]))`. -/
def shapes_rasterize (raster : Nat → Int) (c : GridCoords) : Mask :=
  let n := c.dimLen c.latKey * c.dimLen c.lonKey
  { dims := [c.latKey, c.lonKey]
    cells := (List.range n).map (fun i => Cell.intC (raster i)) }

/-- Model of `mask_contains_points` (shapes.py lines 65-125).  The source
asserts that latitude and longitude are either indexed by the same
dimension tuple (irregular data) or each by its own 1-d axis named after
itself (regular data, in which case a meshgrid is built); any other layout
fails the assert — the failure the spec names GeometryDimensionMismatchError.
The exterior-ring extraction and the batched
`matplotlib.path.Path.contains_points` test are external library calls,
abstracted as `marked`, the set of flattened positions of the output the
shape loop assigns True to.  The output array is created as
`np.zeros(shape).astype(bool) * np.nan` — a float array of NaN — over
`list(set(lat_dims + lon_dims))`; CPython set iteration order is
unspecified, modelled as first-occurrence order, and no property proved
below depends on that order. -/
def mask_contains_points (marked : List Nat) (c : GridCoords) :
    Except PyErr Mask :=
  if (c.latDims = c.lonDims) ∨ (c.latDims = [c.latKey] ∧ c.lonDims = [c.lonKey]) then
    let spatial_dims := (c.latDims ++ c.lonDims).dedup
    let n := shapeSize (spatial_dims.map c.dimLen)
    Except.ok
      { dims := spatial_dims
        cells := (List.range n).map (fun i =>
          if i ∈ marked then Cell.floatTrue else Cell.floatNaN) }
  else
    Except.error PyErr.assertionError

/-- Model of `_shape_mask_iterator` (shapes.py lines 131-146): the
geometries are drawn from the collection in row order (the geopandas
conversion preserves it) and each yields one mask through the strategy the
`regular_grid` flag selects.  Geometries are identified by their input
index; `rasterOracle` and `markedOracle` give each geometry its external
rasterio/matplotlib outcome. -/
def shape_mask_iterator (rasterOracle : Nat → Nat → Int)
    (markedOracle : Nat → List Nat) (shapes : List Nat) (c : GridCoords)
    (regular_grid : Bool) : List (Except PyErr Mask) :=
  shapes.map (fun s =>
    if regular_grid then Except.ok (shapes_rasterize (rasterOracle s) c)
    else mask_contains_points (markedOracle s) c)

/-- Well-typedness of one produced mask, per strategy: a rasterize-path
mask is integer-valued over exactly `(lat_key, lon_key)`; a
point-in-polygon mask spans the deduplicated union of the lat/lon
dimensions and every cell is either the float NaN default or an assigned
True.  Errors produce no mask. -/
def maskWellTyped : Bool → GridCoords → Except PyErr Mask → Bool
  | _, _, Except.error _ => true
  | true, c, Except.ok mk =>
    decide (mk.dims = [c.latKey, c.lonKey]) &&
      mk.cells.all (fun cl => match cl with
        | Cell.intC _ => true
        | _ => false)
  | false, c, Except.ok mk =>
    decide (mk.dims = (c.latDims ++ c.lonDims).dedup) &&
      mk.cells.all (fun cl => match cl with
        | Cell.floatNaN => true
        | Cell.floatTrue => true
        | Cell.intC _ => false)

/-- Geometry collection as read by `shapes.reduce`: geometries in row
order (identified by input index), named attribute columns, and the
top-level attribute mapping. -/
structure GeoDataFrame where
  geometries : List Nat
  columns : List (String × List String)
  attrs : Dict
deriving DecidableEq

/-- Spatially reduced output: a new feature dimension with its coordinate
labels, one reduced value per feature, and the result attributes. -/
structure ReducedFeatureArray where
  featureDim : String
  featureLabels : List String
  values : List (Option ℚ)
  attrs : Dict
deriving DecidableEq

/-- Model of `reduce` (shapes.py lines 192-258) for a string `mask_dim`.
The per-geometry block — build the mask, `dataarray.where(mask,
other=np.nan)`, reduce over the spatial dimensions with the resolved
reducer, `.compute()` — involves only external xarray/numpy calls and is
abstracted as `reduceOne`, one reduced value per geometry; the loop
appends them in iterator (= input) order.  The feature labels come from
`geodataframe.get(mask_dim, np.arange(len(reduced_list))).to_numpy()`:
when the column exists, `get` returns a pandas Series and `to_numpy`
yields its values, but when it does not, `get` returns the default
`np.arange(...)`, a numpy ndarray, which has no `to_numpy` method, so the
call raises AttributeError.  Finally the per-geometry results are
concatenated along the new dimension, its coordinates assigned, and
`out.attrs.update(geodataframe.attrs)` copies the collection attributes
onto the result. -/
def shapes_reduce (reduceOne : Nat → Option ℚ) (gdf : GeoDataFrame)
    (mask_dim : String) : Except PyErr ReducedFeatureArray := do
  let reduced_list := gdf.geometries.map reduceOne
  let mask_dim_values ← match gdf.columns.lookup mask_dim with
    | some col => Except.ok col
    | none =>
      Except.error (PyErr.attributeError
        "numpy.ndarray object has no attribute to_numpy")
  Except.ok
    { featureDim := mask_dim
      featureLabels := mask_dim_values
      values := reduced_list
      attrs := gdf.attrs }

/-! ## Theorems settling the claims -/

/-- Claim C1: the claim states that every climatological reduction whose
resolved frequency is "season" returns its season axis in the fixed order
[DJF, MAM, JJA, SON] regardless of group-discovery order.  On the code the
reordering never happens: the groupby-kwargs wrapper moves "frequency" out
of `**kwargs` before the season wrapper inspects them, so the guard
`kwargs.get("frequency", "NOTseason")` never fires, and even the guarded
line discards the `reindex` result.  Evaluated at a mean call with
frequency="season" whose grouping engine discovers the seasons as
[JJA, SON, DJF, MAM], the returned axis keeps that discovery order. -/
theorem climatology_mean_keeps_discovery_order :
    (climatology_mean
        (fun _ => [("JJA", some 1), ("SON", some 2), ("DJF", some 3), ("MAM", some 4)])
        [] none [("frequency", "season")]).1.map Prod.fst
      = ["JJA", "SON", "DJF", "MAM"]
    ∧ ["JJA", "SON", "DJF", "MAM"] ≠ SEASON_ORDER := by decide

/-- Claim C2: the claim states that `percentiles(array, ps)` returns the
same values as `quantiles(array, [p/100 for p in ps])` up to axis
relabelling.  On the code `percentiles` never returns: its local list named
`quantiles` shadows the `quantiles` function, so the delegating call
applies a list and raises TypeError.  Evaluated at ps = [50]: percentiles
raises while the quantiles function itself succeeds on [1/2]. -/
theorem percentiles_call_raises_type_error :
    climatology_percentiles (fun q => [("DJF", some q)]) [50]
      = Except.error (PyErr.typeError "list object is not callable")
    ∧ climatology_quantiles (fun q => [("DJF", some q)]) [1/2]
      = [(1/2, [("DJF", some (1/2))])] := ⟨rfl, rfl⟩

/-- Claim C3: the claim states that climatological operations are pure — an
earlier call's `frequency` keyword never affects a later, independent call.
On the code the shared default `groupby_kwargs: dict = {}` is mutated by
`setdefault`: after `mean(..., frequency="month")` the default dict holds
that frequency, and a following `mean(...)` with no keyword arguments is
grouped by month, unlike the identical call made on a fresh state. -/
theorem climatology_mean_cross_call_leak :
    let gb : Dict → SeasonArray := fun gkw =>
      if gkw.lookup "frequency" = some "month" then [("bymonth", some 1)]
      else [("inferred", some 2)]
    let call1 := climatology_mean gb [] none [("frequency", "month")]
    let second := climatology_mean gb call1.2 none []
    let fresh := climatology_mean gb [] none []
    call1.2 = [("frequency", "month")]
    ∧ second.1 = [("bymonth", some 1)]
    ∧ fresh.1 = [("inferred", some 2)]
    ∧ second.1 ≠ fresh.1 := by decide

/-- Claim C4: the claim states that `nanaverage` accepts `axis` as either a
single index or a sequence and in both forms produces the weighted NaN-aware
mean over the given axes.  On the code, with weights supplied: a single
integer axis raises TypeError at `for a in axis`; a proper subset of the
axes raises ValueError, because `axis` is a named parameter and is never
forwarded through `**kwargs` to `np.nansum`, so the denominator is a 0-d
scalar that cannot be reshaped to the per-axis shape.  Only when the listed
axes cover every dimension does the call return, and then it equals the
full-array weighted mean.  Evaluated on a 2x2 array with unit weights. -/
theorem nanaverage_axis_handling :
    nanaverage ⟨[2, 2], [some 1, some 2, some 3, some 4]⟩
        (some ⟨[2, 2], [some 1, some 1, some 1, some 1]⟩) (AxisArg.intAxis 0)
      = Except.error (PyErr.typeError "int object is not iterable")
    ∧ nanaverage ⟨[2, 2], [some 1, some 2, some 3, some 4]⟩
        (some ⟨[2, 2], [some 1, some 1, some 1, some 1]⟩) (AxisArg.listAxis [0])
      = Except.error (PyErr.valueError "cannot reshape array")
    ∧ nanaverage ⟨[2, 2], [some 1, some 2, some 3, some 4]⟩
        (some ⟨[2, 2], [some 1, some 1, some 1, some 1]⟩) (AxisArg.listAxis [0, 1])
      = Except.ok ⟨[], [some (5/2)]⟩ := by
  refine ⟨rfl, rfl, ?_⟩
  norm_num [nanaverage, npOnes, shapeSize, elemMul, nansumAll, nanmeanAll, ndReshape,
    reshapeOnes, divByScalar, List.zipWith, List.replicate, bind, Except.bind,
    Option.getD, List.head?]

/-- Claim C5: the claim states that whenever bin widths are supplied —
directly as an integer or derived from the multiplier prefix of the
inferred frequency — groupby builds edges as `range(0, max+1, width)` and
groups by binned-interval membership.  The direct-integer path does exactly
that (month: [0,3,6,9,12]; dayofyear with width 90: [0,90,180,270,360]),
but the derived path keeps the prefix as the string "3", and
`range(0, 367, "3")` raises TypeError instead of building edges. -/
theorem groupby_bin_widths_behaviour :
    tyto_groupby (InferOutcome.freq "3D") none BW.noneV
      = Except.error (PyErr.typeError "str object cannot be interpreted as an integer")
    ∧ tyto_groupby (InferOutcome.freq "D") (some "month") (BW.intV 3)
      = Except.ok (GroupResult.binned "month" [0, 3, 6, 9, 12])
    ∧ tyto_groupby (InferOutcome.freq "D") (some "dayofyear") (BW.intV 90)
      = Except.ok (GroupResult.binned "dayofyear" [0, 90, 180, 270, 360]) := by decide

/-- Claim C6: the claim states that an irregular or too-short time axis with
no explicit frequency raises the user-facing inference error.  On the code
only an exception from `xr.infer_freq` (fewer than three points) is caught
and converted to the user-facing ValueError; for irregular spacing with
three or more points `xr.infer_freq` returns None, which flows uncaught
into `_pandas_frequency_and_bins` and raises a bare AttributeError. -/
theorem groupby_inference_failure_modes :
    tyto_groupby InferOutcome.noFreq none BW.noneV
      = Except.error (PyErr.attributeError "NoneType object has no attribute lstrip")
    ∧ tyto_groupby InferOutcome.raisesError none BW.noneV
      = Except.error (PyErr.valueError
          "Unable to infer time frequency from data; please pass the frequency argument explicitly") := by decide

/-- Claim C7: the claim states that rolling_reduce drops NaN labels exactly
when dropnaHow is set, and drops nothing when it is unset.  On the code
(besides the module-killing SyntaxError at line 207) the dropna branch runs
unconditionally — the test is the literal string truthiness check — and the
caller-supplied dropna_how is clobbered to None by line 212, so every call
ends in TypeError from dropna, whether dropna_how was omitted or given. -/
theorem rolling_reduce_dropna_defect :
    rolling_reduce [some 1, some 2, some 3] 2 none
      = Except.error (PyErr.typeError "must specify how or thresh")
    ∧ rolling_reduce [some 1, some 2, some 3] 2 (some "all")
      = Except.error (PyErr.typeError "must specify how or thresh") := by decide

/-- Claim C8: the claim states that spatial reduction returns one feature
per geometry in input order, labelled by the featureIdField column when it
exists and by a 0-based index otherwise, with the collection attributes
copied onto the result.  With the column present the code does exactly that,
but the fallback `np.arange(...).to_numpy()` calls a method numpy arrays do
not have, so a collection without the column raises AttributeError instead
of getting index labels. -/
theorem shapes_reduce_feature_labels :
    shapes_reduce (fun g => some (g : ℚ))
        ⟨[0, 1, 2], [("FID", ["a", "b", "c"])], [("title", "regions")]⟩ "FID"
      = Except.ok ⟨"FID", ["a", "b", "c"], [some 0, some 1, some 2], [("title", "regions")]⟩
    ∧ shapes_reduce (fun g => some (g : ℚ)) ⟨[0, 1], [], []⟩ "FID"
      = Except.error (PyErr.attributeError
          "numpy.ndarray object has no attribute to_numpy") := by decide

/-- Counterexample to claim C9 as stated: the point-in-polygon strategy
does not produce boolean- or integer-valued masks.  For one geometry over a
3-point irregular grid marking only position 1, the single yielded mask is
the float array [NaN, True, NaN], and a NaN cell is not a boolean or
integer value. -/
theorem point_mask_contains_nan :
    shape_mask_iterator (fun _ _ => 0) (fun _ => [1]) [0]
        ⟨"lat", "lon", ["points"], ["points"], [("points", 3)]⟩ false
      = [Except.ok ⟨["points"], [Cell.floatNaN, Cell.floatTrue, Cell.floatNaN]⟩]
    ∧ Cell.isBoolOrInt Cell.floatNaN = false := by decide

/-- Helper: a rasterize-path mask is well typed — integer cells over exactly
the (lat, lon) dimensions. -/
theorem maskWellTyped_rasterize (r : Nat → Int) (c : GridCoords) :
    maskWellTyped true c (Except.ok (shapes_rasterize r c)) = true := by
  simp only [maskWellTyped, shapes_rasterize, Bool.and_eq_true, decide_eq_true_eq,
    List.all_eq_true]
  refine ⟨by trivial, ?_⟩
  intro x hx
  obtain ⟨i, _, rfl⟩ := List.mem_map.mp hx
  rfl

/-- Helper: a point-in-polygon mask, when the dimensionality assert passes,
is well typed — cells drawn from the float NaN default or an assigned True,
over the deduplicated union of the lat/lon dimensions; a failed assert
produces no mask. -/
theorem maskWellTyped_contains_points (m : List Nat) (c : GridCoords) :
    maskWellTyped false c (mask_contains_points m c) = true := by
  unfold mask_contains_points
  split
  · simp only [maskWellTyped, Bool.and_eq_true, decide_eq_true_eq, List.all_eq_true]
    refine ⟨by trivial, ?_⟩
    intro x hx
    obtain ⟨i, _, rfl⟩ := List.mem_map.mp hx
    by_cases h : i ∈ m <;> simp [h]
  · rfl

/-- Claim C9, amended: the mask iterator yields exactly one result per
geometry in input order — the rasterize strategy when regular_grid is set,
the point-in-polygon strategy otherwise; every rasterize-path mask is
integer-valued over exactly (lat_key, lon_key), while every
point-in-polygon mask spans the union of the lat/lon dimensions with each
cell either the float NaN default or an assigned True (stored as 1.0) —
a float array, not a boolean/integer one, wherever any point is unmarked. -/
theorem mask_iterator_amended (rOracle : Nat → Nat → Int)
    (mOracle : Nat → List Nat) (shapes : List Nat) (c : GridCoords) (rg : Bool) :
    (shape_mask_iterator rOracle mOracle shapes c rg).length = shapes.length
    ∧ shape_mask_iterator rOracle mOracle shapes c rg
        = shapes.map (fun s =>
            if rg then Except.ok (shapes_rasterize (rOracle s) c)
            else mask_contains_points (mOracle s) c)
    ∧ (shape_mask_iterator rOracle mOracle shapes c rg).all (maskWellTyped rg c)
        = true := by
  refine ⟨by simp [shape_mask_iterator], rfl, ?_⟩
  rw [List.all_eq_true]
  intro x hx
  simp only [shape_mask_iterator, List.mem_map] at hx
  obtain ⟨s, _, rfl⟩ := hx
  cases rg
  · simpa using maskWellTyped_contains_points (mOracle s) c
  · simpa using maskWellTyped_rasterize (rOracle s) c

/-- Claim C10: whenever the latitude/longitude coordinates are in neither
the shared-dimension irregular form nor the independent 1-d regular form,
the point-in-polygon masking fails up front — the assert at shapes.py lines
87-90, the failure the spec names GeometryDimensionMismatchError. -/
theorem mask_contains_points_dim_mismatch (c : GridCoords) (marked : List Nat)
    (h1 : c.latDims ≠ c.lonDims)
    (h2 : ¬(c.latDims = [c.latKey] ∧ c.lonDims = [c.lonKey])) :
    mask_contains_points marked c = Except.error PyErr.assertionError := by
  unfold mask_contains_points
  rw [if_neg]
  rintro (hA | hB)
  · exact h1 hA
  · exact h2 hB

/-- Witness for claim C10 at a concrete grid: latitude indexed by ["x"],
longitude by ["y", "x"] — neither shared nor independent 1-d form. -/
theorem mask_contains_points_dim_mismatch_witness :
    mask_contains_points [] ⟨"lat", "lon", ["x"], ["y", "x"], [("x", 2), ("y", 2)]⟩
      = Except.error PyErr.assertionError :=
  mask_contains_points_dim_mismatch _ _ (by decide) (by decide)

end EK
